import Mathlib

/-!
Shallow embedding of the `sovereign-mesh` crate (`src/sovereign-mesh/src/lib.rs`):
the mesh node construction (`MeshNode::new`), the pre-shared-key file loader
(`load_swarm_key`, present in the source only in commented-out form behind a
TODO), and the actor run loop (`MeshNode::run`).

Modelling conventions:
- identity keypairs and peer identifiers are abstracted to natural numbers
  (`PeerId.from` is the injective wrapper `PeerId.mk`);
- the file system is a value `Option String` (the content of the file at
  `key_path`, or `none` when the file is absent);
- calls into the libp2p library whose outcome the crate merely propagates
  (gossipsub config build, gossipsub behaviour creation, mdns creation,
  multiaddr parsing, `swarm.dial`, `swarm.listen_on`) are inputs of the model,
  supplied through environment records;
- logging macros (`info!`, `warn!`, `error!`, `debug!`) become explicit
  `LogEntry` values collected in the output;
- the body of `MeshNode::run`'s `loop`/`select!` is modelled as a step function
  on the swarm state consuming one input (a received command, a closed-channel
  signal, or a swarm event) per iteration.
-/

namespace SovereignMesh

/-! ### Log entries (the `log` crate macros used by the source) -/

inductive LogLevel
  | info
  | warn
  | error
  | debug
deriving DecidableEq, Repr

structure LogEntry where
  level : LogLevel
  msg : String
deriving DecidableEq, Repr

/-! ### Hex decoding (`hex::decode`, used by `load_swarm_key`)

`hex::decode` first rejects an odd-length input with `FromHexError::OddLength`,
then decodes pairs of hex digits, rejecting a non-digit with
`FromHexError::InvalidHexCharacter`. -/

inductive HexError
  | oddLength
  | invalidChar
deriving DecidableEq, Repr

def hexDigit (c : Char) : Option Nat :=
  if '0' ≤ c ∧ c ≤ '9' then some (c.toNat - '0'.toNat)
  else if 'a' ≤ c ∧ c ≤ 'f' then some (c.toNat - 'a'.toNat + 10)
  else if 'A' ≤ c ∧ c ≤ 'F' then some (c.toNat - 'A'.toNat + 10)
  else none

def hexPairs : List Char → Except HexError (List Nat)
  | [] => Except.ok []
  | [_] => Except.error HexError.oddLength
  | c1 :: c2 :: rest =>
    match hexDigit c1, hexDigit c2 with
    | some hi, some lo =>
      match hexPairs rest with
      | Except.ok bs => Except.ok ((16 * hi + lo) :: bs)
      | Except.error e => Except.error e
    | _, _ => Except.error HexError.invalidChar

def hexDecode (s : String) : Except HexError (List Nat) :=
  if s.length % 2 ≠ 0 then Except.error HexError.oddLength
  else hexPairs s.toList

/-! ### Rust `str::lines` and `str::trim` -/

/-- Split a character list at every newline character. The result always has
one more piece than there are newlines. -/
def splitOnNewline : List Char → List (List Char)
  | [] => [[]]
  | c :: rest =>
    if c = '\n' then [] :: splitOnNewline rest
    else
      match splitOnNewline rest with
      | h :: t => (c :: h) :: t
      | [] => [[c]]

/-- Remove one trailing carriage return, as Rust `lines()` does for `\r\n`
line terminators. -/
def stripTrailingCR : List Char → List Char
  | [] => []
  | ['\r'] => []
  | c :: rest => c :: stripTrailingCR rest

/-- Rust `content.lines()`: split at `\n`, strip a trailing `\r` from each
line, and do not produce a final empty line for a trailing newline (so the
empty string has no lines at all). -/
def rustLines (s : String) : List String :=
  let pieces := splitOnNewline s.data
  let pieces :=
    match pieces.getLast? with
    | some [] => pieces.dropLast
    | _ => pieces
  pieces.map fun l => String.mk (stripTrailingCR l)

def dropLeadingWhitespace : List Char → List Char
  | [] => []
  | c :: rest => if c.isWhitespace then dropLeadingWhitespace rest else c :: rest

/-- Rust `str::trim`: remove leading and trailing whitespace. -/
def rustTrim (s : String) : String :=
  String.mk ((dropLeadingWhitespace (dropLeadingWhitespace s.data.reverse).reverse))

/-! ### `load_swarm_key` (source lines 141-157; the function appears in the
source only inside a block comment marked `TODO: Uncomment and fix when
implementing PNet`, and is embedded here from that commented text) -/

/-- The error cases of `load_swarm_key`. In the source all of them are `anyhow`
errors; the constructors record which failure site produced the error:
- `missingFile`: `std::fs::read_to_string(path)?` failed (file absent);
- `invalidHeader`: first line is not `/key/swarm/psk/1.0.0/`;
- `unsupportedEncoding`: second line is not `/base16/`;
- `missingKeyData`: no third line;
- `hexError`: `hex::decode(key_hex.trim())?` failed;
- `invalidLength`: decoded payload is not exactly 32 bytes. -/
inductive LoadError
  | missingFile
  | invalidHeader
  | unsupportedEncoding
  | missingKeyData
  | hexError (e : HexError)
  | invalidLength
deriving DecidableEq, Repr

def load_swarm_key (file : Option String) : Except LoadError (List Nat) :=
  match file with
  | none => Except.error LoadError.missingFile
  | some content =>
    let lines := rustLines content
    if lines.get? 0 ≠ some "/key/swarm/psk/1.0.0/" then
      Except.error LoadError.invalidHeader
    else if lines.get? 1 ≠ some "/base16/" then
      Except.error LoadError.unsupportedEncoding
    else
      match lines.get? 2 with
      | none => Except.error LoadError.missingKeyData
      | some key_hex =>
        match hexDecode (rustTrim key_hex) with
        | Except.error e => Except.error (LoadError.hexError e)
        | Except.ok bytes =>
          if bytes.length = 32 then Except.ok bytes
          else Except.error LoadError.invalidLength

/-- A well-formed swarm-key file: both literal header lines and a 64-character
hex payload. -/
def validSwarmKeyFile : String :=
  "/key/swarm/psk/1.0.0/\n/base16/\n" ++ String.mk (List.replicate 64 'a')

/-- A swarm-key file whose payload is 63 hex characters (odd length). -/
def keyFile63 : String :=
  "/key/swarm/psk/1.0.0/\n/base16/\n" ++ String.mk (List.replicate 63 'a')

/-! ### Identity (`libp2p::identity`, `PeerId`)

Keypairs are abstracted to a natural number seed; `PeerId::from(public)` is the
injective constructor `PeerId.mk`. -/

structure PeerId where
  ofKey : Nat
deriving DecidableEq, Repr

/-! ### Transport pipeline (`MeshNode::new`, source lines 55-65)

The source composes `tcp::tokio::Transport::new(tcp_config)` with
`.upgrade(Version::V1).authenticate(noise_config).multiplex(yamux::Config::default())`.
The pipeline is modelled as the ordered list of layers, outermost first in
connection order. A `pnet` layer constructor is included in the layer type so
that the presence or absence of a private-network envelope is expressible; the
source never adds one (its PNet section is commented out). -/

structure TcpConfig where
  nodelay : Bool
deriving DecidableEq, Repr

/-- `tcp::Config::default()` (nodelay not set). -/
def TcpConfig.base : TcpConfig := { nodelay := false }

/-- `tcp::Config::nodelay(b)`. -/
def TcpConfig.setNodelay (c : TcpConfig) (b : Bool) : TcpConfig := { c with nodelay := b }

inductive TransportLayer
  | tcp (cfg : TcpConfig)
  | pnet (psk : List Nat)
  | upgradeV1
  | noiseAuth (idKeys : Nat)
  | yamuxMux
deriving DecidableEq, Repr

def TransportLayer.isPnet : TransportLayer → Bool
  | TransportLayer.pnet _ => true
  | _ => false

/-! ### Gossipsub configuration (`MeshNode::new`, source lines 67-75) -/

inductive ValidationMode
  | strict
  | permissive
  | anonymous
  | noValidation
deriving DecidableEq, Repr

inductive MessageAuthenticity
  | signed (idKeys : Nat)
  | author (p : PeerId)
  | randomAuthor
  | anonymous
deriving DecidableEq, Repr

structure GossipsubConfig where
  heartbeatIntervalMs : Nat
  validationMode : ValidationMode
deriving DecidableEq, Repr

/-- `gossipsub::ConfigBuilder::default()`: library defaults (1 s heartbeat,
strict validation). -/
def GossipsubConfig.base : GossipsubConfig :=
  { heartbeatIntervalMs := 1000, validationMode := ValidationMode.strict }

/-- `ConfigBuilder::heartbeat_interval(d)`. -/
def GossipsubConfig.setHeartbeatInterval (c : GossipsubConfig) (ms : Nat) : GossipsubConfig :=
  { c with heartbeatIntervalMs := ms }

/-- `ConfigBuilder::validation_mode(m)`. -/
def GossipsubConfig.setValidationMode (c : GossipsubConfig) (m : ValidationMode) : GossipsubConfig :=
  { c with validationMode := m }

structure GossipsubBehaviour where
  authenticity : MessageAuthenticity
  config : GossipsubConfig
deriving DecidableEq, Repr

/-! ### MeshNode construction (`MeshNode::new`, source lines 36-91) -/

/-- Outcomes of the libp2p library calls made by `MeshNode::new` whose results
the crate merely propagates: `ConfigBuilder::build()`,
`gossipsub::Behaviour::new`, and `mdns::tokio::Behaviour::new`. `none` means
the call succeeded; `some msg` is the library error rendered as a string. -/
structure LibOutcomes where
  gossipsubBuildErr : Option String
  gossipsubNewErr : Option String
  mdnsNewErr : Option String
deriving DecidableEq, Repr

/-- The constructed node, as far as configuration is observable: local peer
identifier, transport layer stack, gossipsub behaviour configuration, and the
swarm idle-connection timeout set through `with_swarm_config`. The kademlia
memory store and mdns behaviour are keyed by the local peer id. -/
structure MeshNodeModel where
  localPeerId : PeerId
  transport : List TransportLayer
  gossipsub : GossipsubBehaviour
  kademliaStorePeer : PeerId
  mdnsLocalPeer : PeerId
  idleConnectionTimeoutSecs : Nat
deriving DecidableEq, Repr

/-- `MeshNode::new(key_path, command_rx)`. `idKeys` stands for the fresh
ed25519 keypair generated at the top of the function; `keyFile` is the content
of the file at `key_path` (`none` when absent). Returns the log entries
emitted and the `anyhow::Result<Self>`. The PNet configuration section of the
source (lines 45-53) is commented out behind a
`TODO: Implement PNet transport conditional on PSK`, so `keyFile` is never
inspected. -/
def MeshNode.new (lib : LibOutcomes) (idKeys : Nat) (keyFile : Option String) :
    List LogEntry × Except String MeshNodeModel :=
  let peer_id : PeerId := PeerId.mk idKeys
  let logs : List LogEntry :=
    [LogEntry.mk LogLevel.info ("Mesh Identity Initialized: " ++ toString peer_id.ofKey)]
  let tcp_config := TcpConfig.base.setNodelay true
  let transport : List TransportLayer :=
    [TransportLayer.tcp tcp_config, TransportLayer.upgradeV1,
     TransportLayer.noiseAuth idKeys, TransportLayer.yamuxMux]
  let message_authenticity := MessageAuthenticity.signed idKeys
  let gossipsub_config :=
    (GossipsubConfig.base.setHeartbeatInterval 1000).setValidationMode ValidationMode.strict
  match lib.gossipsubBuildErr with
  | some msg => (logs, Except.error ("Gossipsub config error: " ++ msg))
  | none =>
    match lib.gossipsubNewErr with
    | some e => (logs, Except.error ("Failed to create gossipsub: " ++ e))
    | none =>
      match lib.mdnsNewErr with
      | some e => (logs, Except.error e)
      | none =>
        (logs, Except.ok
          { localPeerId := peer_id
            transport := transport
            gossipsub := GossipsubBehaviour.mk message_authenticity gossipsub_config
            kademliaStorePeer := peer_id
            mdnsLocalPeer := peer_id
            idleConnectionTimeoutSecs := 60 })

/-- All library calls succeed. -/
def libOk : LibOutcomes :=
  { gossipsubBuildErr := none, gossipsubNewErr := none, mdnsNewErr := none }

/-! ### Gossipsub ingress validation

Modelled from the spec: the gossipsub message-validation behaviour itself lives
in the libp2p library, not in this repository; the spec states that in strict
mode malformed or improperly signed incoming messages are dropped silently at
ingress and never surfaced as events. -/

structure PubMessage where
  wellFormed : Bool
  signatureOk : Bool
deriving DecidableEq, Repr

/-- Ingress filtering: the message surfaced as an event, or `none` when it is
dropped. Only the strict mode is used by this crate; other modes are modelled
as passing the message through. -/
def gossipsubIngress (mode : ValidationMode) (m : PubMessage) : Option PubMessage :=
  match mode with
  | ValidationMode.strict => if m.wellFormed && m.signatureOk then some m else none
  | _ => some m

/-! ### The actor run loop (`MeshNode::run`, source lines 94-135) -/

/-- The mutable swarm state the loop touches: the local peer id (read by
`GetPeerId`), the connected-peer set (read by `GetPeers`), and the kademlia
routing table (written by the mDNS branch through
`kademlia.add_address(&peer, addr)`). -/
structure SwarmState where
  localPeerId : PeerId
  connectedPeers : List PeerId
  routingTable : List (PeerId × String)
deriving DecidableEq, Repr

/-- `kad::Behaviour::add_address`: record one address for a peer. Whatever
deduplication kademlia performs internally is not modelled; the table keeps
every inserted pair. -/
def kademliaAddAddress (rt : List (PeerId × String)) (peer : PeerId) (addr : String) :
    List (PeerId × String) :=
  rt ++ [(peer, addr)]

/-- The `MeshCommand` enum (source lines 29-33). The one-shot reply senders
are modelled by whether their receiving end is still alive (`tx.send` fails
exactly when it is not). -/
inductive MeshCommand
  | dial (addr : String)
  | getPeers (receiverAlive : Bool)
  | getPeerId (receiverAlive : Bool)
deriving DecidableEq, Repr

/-- The swarm events distinguished by the `match` in the loop; every other
event falls into the wildcard arm. -/
inductive SwarmEv
  | newListenAddr (address : String)
  | mdnsDiscovered (found : List (PeerId × String))
  | pingEvent (info : String)
  | otherEvent
deriving DecidableEq, Repr

/-- One input consumed by an iteration of the `select!` loop: either the
result of `command_rx.recv()` (`none` signalling that every sender was
dropped) or a swarm event. -/
inductive LoopInput
  | command (cmd : Option MeshCommand)
  | swarmEvent (ev : SwarmEv)
deriving DecidableEq, Repr

/-- Outcomes of the libp2p calls the loop makes: `addr.parse::<Multiaddr>()`
and `swarm.dial(ma)` (and `swarm.listen_on` for `run` itself). -/
structure SwarmEnv where
  parseMultiaddr : String → Option String
  dialOutcome : String → Except String Unit
  listenOutcome : String → Except String Unit

/-- Externally visible effects of one loop iteration. A `dialAttempt` records
the ignored `Result` of `swarm.dial`; `sendPeers`/`sendPeerId` record the
one-shot reply and whether it was delivered (the boolean result of `tx.send`
is discarded by the source either way). -/
inductive Action
  | dialAttempt (ma : String) (result : Except String Unit)
  | sendPeers (peers : List String) (delivered : Bool)
  | sendPeerId (pid : String) (delivered : Bool)
  | kadInsert (peer : PeerId) (addr : String)
  | logged (level : LogLevel) (msg : String)

def Action.isLog : Action → Bool
  | Action.logged _ _ => true
  | _ => false

inductive StepOutcome
  | cont (s : SwarmState) (acts : List Action)
  | stop (acts : List Action)

def StepOutcome.isStop : StepOutcome → Bool
  | StepOutcome.cont _ _ => false
  | StepOutcome.stop _ => true

/-- The state reached after the iteration, when the loop continues. -/
def StepOutcome.stateAfter (s : SwarmState) : StepOutcome → SwarmState
  | StepOutcome.cont s' _ => s'
  | StepOutcome.stop _ => s

/-- One iteration of the `loop { tokio::select! { ... } }` body of
`MeshNode::run` (source lines 100-134). -/
def MeshNode.step (env : SwarmEnv) (s : SwarmState) (i : LoopInput) : StepOutcome :=
  match i with
  | LoopInput.command cmd =>
    match cmd with
    | some (MeshCommand.dial addr) =>
      match env.parseMultiaddr addr with
      | some ma => StepOutcome.cont s [Action.dialAttempt ma (env.dialOutcome ma)]
      | none => StepOutcome.cont s []
    | some (MeshCommand.getPeers alive) =>
      StepOutcome.cont s
        [Action.sendPeers (s.connectedPeers.map fun p => toString p.ofKey) alive]
    | some (MeshCommand.getPeerId alive) =>
      StepOutcome.cont s [Action.sendPeerId (toString s.localPeerId.ofKey) alive]
    | none =>
      StepOutcome.stop
        [Action.logged LogLevel.info "Mesh Command Channel closed. Shutting down Mesh Actor."]
  | LoopInput.swarmEvent ev =>
    match ev with
    | SwarmEv.newListenAddr a =>
      StepOutcome.cont s [Action.logged LogLevel.info ("Mesh listening on " ++ a)]
    | SwarmEv.mdnsDiscovered found =>
      StepOutcome.cont
        { s with routingTable :=
            found.foldl (fun rt pa => kademliaAddAddress rt pa.1 pa.2) s.routingTable }
        (found.flatMap fun pa =>
          [Action.logged LogLevel.info
            ("mDNS Discovered: " ++ toString pa.1.ofKey ++ " at " ++ pa.2),
           Action.kadInsert pa.1 pa.2])
    | SwarmEv.pingEvent info =>
      StepOutcome.cont s [Action.logged LogLevel.debug ("Ping event: " ++ info)]
    | SwarmEv.otherEvent => StepOutcome.cont s []

inductive RunOutcome
  | running (s : SwarmState)
  | stopped
deriving Repr

/-- The loop of `MeshNode::run`, driven by a finite input trace. The trace
running out means the actor is still alive and waiting. -/
def MeshNode.loopRun (env : SwarmEnv) (s : SwarmState) :
    List LoopInput → List Action × RunOutcome
  | [] => ([], RunOutcome.running s)
  | i :: rest =>
    match MeshNode.step env s i with
    | StepOutcome.cont s' acts =>
      let r := MeshNode.loopRun env s' rest
      (acts ++ r.1, r.2)
    | StepOutcome.stop acts => (acts, RunOutcome.stopped)

/-- The listening address hard-coded by `run`. -/
def listenAddress : String := "/ip4/0.0.0.0/tcp/0"

/-- `MeshNode::run` (source lines 94-135): bind the listener first; on
failure log an error and return without entering the loop. -/
def MeshNode.run (env : SwarmEnv) (s : SwarmState) (inputs : List LoopInput) :
    List Action × RunOutcome :=
  match env.listenOutcome listenAddress with
  | Except.error e =>
    ([Action.logged LogLevel.error ("Failed to start listener: " ++ e)], RunOutcome.stopped)
  | Except.ok _ => MeshNode.loopRun env s inputs

/-! ### Concrete fixtures used to instantiate the theorems -/

def stateA : SwarmState :=
  { localPeerId := PeerId.mk 7
    connectedPeers := [PeerId.mk 5, PeerId.mk 9]
    routingTable := [] }

def envA : SwarmEnv :=
  { parseMultiaddr := fun s => if s = "/ip4/127.0.0.1/tcp/4001" then some s else none
    dialOutcome := fun _ => Except.error "connection refused"
    listenOutcome := fun _ => Except.ok () }

def envListenFail : SwarmEnv :=
  { parseMultiaddr := fun s => if s = "/ip4/127.0.0.1/tcp/4001" then some s else none
    dialOutcome := fun _ => Except.error "connection refused"
    listenOutcome := fun _ => Except.error "address in use" }

/-- The node `MeshNode.new libOk 7 _` constructs. -/
def nodeA : MeshNodeModel :=
  { localPeerId := PeerId.mk 7
    transport := [TransportLayer.tcp { nodelay := true }, TransportLayer.upgradeV1,
                  TransportLayer.noiseAuth 7, TransportLayer.yamuxMux]
    gossipsub := GossipsubBehaviour.mk (MessageAuthenticity.signed 7)
      { heartbeatIntervalMs := 1000, validationMode := ValidationMode.strict }
    kademliaStorePeer := PeerId.mk 7
    mdnsLocalPeer := PeerId.mk 7
    idleConnectionTimeoutSecs := 60 }

/-! ### Helper lemmas about the step function -/

/-- Inversion for a continuing step: the local peer id and the connected-peer
set are never written by the loop, and the routing table changes only in the
mDNS-discovered branch, where it becomes the fold of `add_address` over the
reported pairs. -/
theorem step_cont_state (env : SwarmEnv) (s : SwarmState) (i : LoopInput)
    (s' : SwarmState) (acts : List Action)
    (h : MeshNode.step env s i = StepOutcome.cont s' acts) :
    s'.localPeerId = s.localPeerId ∧ s'.connectedPeers = s.connectedPeers ∧
    (s'.routingTable = s.routingTable ∨
      ∃ found, i = LoopInput.swarmEvent (SwarmEv.mdnsDiscovered found) ∧
        s'.routingTable =
          found.foldl (fun rt pa => kademliaAddAddress rt pa.1 pa.2) s.routingTable) := by
  cases i with
  | command cmd =>
    cases cmd with
    | none => simp [MeshNode.step] at h
    | some c =>
      cases c with
      | dial addr =>
        cases hp : env.parseMultiaddr addr <;>
          · simp [MeshNode.step, hp] at h
            obtain ⟨rfl, -⟩ := h
            exact ⟨rfl, rfl, Or.inl rfl⟩
      | getPeers alive =>
        simp [MeshNode.step] at h
        obtain ⟨rfl, -⟩ := h
        exact ⟨rfl, rfl, Or.inl rfl⟩
      | getPeerId alive =>
        simp [MeshNode.step] at h
        obtain ⟨rfl, -⟩ := h
        exact ⟨rfl, rfl, Or.inl rfl⟩
  | swarmEvent ev =>
    cases ev with
    | newListenAddr a =>
      simp [MeshNode.step] at h
      obtain ⟨rfl, -⟩ := h
      exact ⟨rfl, rfl, Or.inl rfl⟩
    | mdnsDiscovered found =>
      simp [MeshNode.step] at h
      obtain ⟨rfl, -⟩ := h
      exact ⟨rfl, rfl, Or.inr ⟨found, rfl, rfl⟩⟩
    | pingEvent info =>
      simp [MeshNode.step] at h
      obtain ⟨rfl, -⟩ := h
      exact ⟨rfl, rfl, Or.inl rfl⟩
    | otherEvent =>
      simp [MeshNode.step] at h
      obtain ⟨rfl, -⟩ := h
      exact ⟨rfl, rfl, Or.inl rfl⟩

/-! ### Claim theorems -/

/-- C1: the spec requires that, when a pre-shared key is present, the
transport pipeline contain a private-network envelope under which
mismatched-key connections fail before any further negotiation. Evaluating
`MeshNode::new` with a well-formed swarm-key file present: the key file parses
to a 32-byte key, yet the constructed pipeline is exactly
TCP(nodelay) → version-1 upgrade → noise → yamux, with no private-network
envelope anywhere — the PNet section of the source is commented out behind a
TODO, so peers without the key are not rejected at any envelope stage. -/
theorem C1_psk_present_but_no_pnet_envelope :
    load_swarm_key (some validSwarmKeyFile) = Except.ok (List.replicate 32 170)
    ∧ ((MeshNode.new libOk 7 (some validSwarmKeyFile)).2.toOption.map
        fun n => n.transport)
      = some [TransportLayer.tcp { nodelay := true }, TransportLayer.upgradeV1,
              TransportLayer.noiseAuth 7, TransportLayer.yamuxMux]
    ∧ ((MeshNode.new libOk 7 (some validSwarmKeyFile)).2.toOption.map
        fun n => n.transport.any TransportLayer.isPnet)
      = some false :=
  ⟨rfl, rfl, rfl⟩

/-- C2 (amended): `load_swarm_key` returns a 32-byte key on success and
otherwise fails with `missingFile` (file absent), `invalidHeader` (first line
mismatch), `unsupportedEncoding` (second line mismatch), `missingKeyData` (no
third line), a hex-decoding error (odd-length or non-hex payload), or
`invalidLength` (decoded payload not exactly 32 bytes); a 63-character hex
payload yields the odd-length hex-decoding error, which is distinct from the
missing-file and wrong-header errors. -/
theorem C2_load_swarm_key_characterisation :
    (∀ file k, load_swarm_key file = Except.ok k → k.length = 32)
    ∧ load_swarm_key none = Except.error LoadError.missingFile
    ∧ (∀ c, (rustLines c)[0]? ≠ some "/key/swarm/psk/1.0.0/" →
        load_swarm_key (some c) = Except.error LoadError.invalidHeader)
    ∧ (∀ c, (rustLines c)[0]? = some "/key/swarm/psk/1.0.0/" →
        (rustLines c)[1]? ≠ some "/base16/" →
        load_swarm_key (some c) = Except.error LoadError.unsupportedEncoding)
    ∧ (∀ c, (rustLines c)[0]? = some "/key/swarm/psk/1.0.0/" →
        (rustLines c)[1]? = some "/base16/" →
        (rustLines c)[2]? = none →
        load_swarm_key (some c) = Except.error LoadError.missingKeyData)
    ∧ (∀ c kh e, (rustLines c)[0]? = some "/key/swarm/psk/1.0.0/" →
        (rustLines c)[1]? = some "/base16/" →
        (rustLines c)[2]? = some kh →
        hexDecode (rustTrim kh) = Except.error e →
        load_swarm_key (some c) = Except.error (LoadError.hexError e))
    ∧ (∀ c kh bs, (rustLines c)[0]? = some "/key/swarm/psk/1.0.0/" →
        (rustLines c)[1]? = some "/base16/" →
        (rustLines c)[2]? = some kh →
        hexDecode (rustTrim kh) = Except.ok bs →
        bs.length ≠ 32 →
        load_swarm_key (some c) = Except.error LoadError.invalidLength)
    ∧ load_swarm_key (some keyFile63) = Except.error (LoadError.hexError HexError.oddLength)
    ∧ LoadError.hexError HexError.oddLength ≠ LoadError.missingFile
    ∧ LoadError.hexError HexError.oddLength ≠ LoadError.invalidHeader := by
  refine ⟨?_, rfl, ?_, ?_, ?_, ?_, ?_, rfl, by decide, by decide⟩
  · intro file k h
    cases file with
    | none => simp [load_swarm_key] at h
    | some c =>
      simp only [load_swarm_key] at h
      split at h
      · simp at h
      · split at h
        · simp at h
        · split at h
          · simp at h
          · split at h
            · simp at h
            · split at h
              · rename_i hlen
                obtain ⟨rfl⟩ := Except.ok.inj h
                exact hlen
              · simp at h
  · intro c hc
    simp [load_swarm_key, hc]
  · intro c h0 h1
    simp [load_swarm_key, h0, h1]
  · intro c h0 h1 h2
    simp [load_swarm_key, h0, h1, h2]
  · intro c kh e h0 h1 h2 hd
    simp [load_swarm_key, h0, h1, h2, hd]
  · intro c kh bs h0 h1 h2 hd hl
    simp [load_swarm_key, h0, h1, h2, hd, hl]

/-- C2 witness: the characterisation applied to a well-formed file (the
64-character payload decodes to 32 bytes) and to a junk file (bad header). -/
theorem C2_load_swarm_key_witness :
    (List.replicate (32 : Nat) (170 : Nat)).length = 32
    ∧ load_swarm_key (some "junk") = Except.error LoadError.invalidHeader :=
  ⟨C2_load_swarm_key_characterisation.1 (some validSwarmKeyFile)
      (List.replicate 32 170) rfl,
   C2_load_swarm_key_characterisation.2.2.1 "junk" (by decide)⟩

/-- C2 counterexample: the claim as stated says a 63-character hex payload
yields `InvalidLength`; on the code it yields the odd-length hex-decoding
error instead (`hex::decode` rejects the payload before any length-32 check
can run), an error the claim's exhaustive list does not contain. -/
theorem C2_sixty_three_char_payload_not_invalid_length :
    load_swarm_key (some keyFile63) = Except.error (LoadError.hexError HexError.oddLength)
    ∧ LoadError.hexError HexError.oddLength ≠ LoadError.invalidLength :=
  ⟨rfl, by decide⟩

/-- C3: the claim says a missing or malformed pre-shared key file is non-fatal
with a loud warning logged, while a malformed gossipsub configuration aborts
construction. On the code, with the key file missing, construction succeeds
(non-fatal holds) but the emitted log contains no warning at all — the PSK
loading block, including its `warn!`, is commented out — while a gossipsub
config build error is indeed propagated as a fatal error. -/
theorem C3_missing_key_file_logs_no_warning :
    ((MeshNode.new libOk 7 none).1.all fun l => l.level != LogLevel.warn) = true
    ∧ (MeshNode.new libOk 7 none).2 = Except.ok nodeA
    ∧ (MeshNode.new
        { gossipsubBuildErr := some "bad config", gossipsubNewErr := none, mdnsNewErr := none }
        7 none).2
      = Except.error "Gossipsub config error: bad config" :=
  ⟨rfl, rfl, rfl⟩

/-- C4: the loop iteration reaches the terminal stopped state exactly when the
command channel reports closure (`recv()` returned `None`, i.e. every sender
was dropped); no command, swarm event, or failed dial stops it, and once the
closed-channel signal arrives the loop ends without error. -/
theorem C4_stop_iff_channel_closed :
    (∀ (env : SwarmEnv) (s : SwarmState) (i : LoopInput),
      (MeshNode.step env s i).isStop = true ↔ i = LoopInput.command none)
    ∧ (∀ (env : SwarmEnv) (s : SwarmState),
        MeshNode.loopRun env s [LoopInput.command none]
          = ([Action.logged LogLevel.info
                "Mesh Command Channel closed. Shutting down Mesh Actor."],
             RunOutcome.stopped)) := by
  refine ⟨fun env s i => ?_, fun env s => rfl⟩
  cases i with
  | command cmd =>
    cases cmd with
    | none => simp [MeshNode.step, StepOutcome.isStop]
    | some c =>
      cases c with
      | dial addr =>
        cases hp : env.parseMultiaddr addr <;>
          simp [MeshNode.step, hp, StepOutcome.isStop]
      | getPeers alive => simp [MeshNode.step, StepOutcome.isStop]
      | getPeerId alive => simp [MeshNode.step, StepOutcome.isStop]
  | swarmEvent ev =>
    cases ev <;> simp [MeshNode.step, StepOutcome.isStop]

/-- C4 witness: at the concrete environment and state, the closed-channel
signal stops the loop. -/
theorem C4_stop_witness :
    (MeshNode.step envA stateA (LoopInput.command none)).isStop = true :=
  (C4_stop_iff_channel_closed.1 envA stateA (LoopInput.command none)).mpr rfl

/-- C5 counterexample: the claim as stated says any dial failure is logged. At
a concrete state and environment in which the dial of a well-formed
multi-address fails with "connection refused", the iteration's effects are the
single ignored dial attempt and contain no log entry at all — the source
discards the `Result` of `swarm.dial` with `let _ =` and logs nothing. -/
theorem C5_dial_failure_not_logged :
    MeshNode.step envA stateA
        (LoopInput.command (some (MeshCommand.dial "/ip4/127.0.0.1/tcp/4001")))
      = StepOutcome.cont stateA
          [Action.dialAttempt "/ip4/127.0.0.1/tcp/4001" (Except.error "connection refused")]
    ∧ Action.isLog
        (Action.dialAttempt "/ip4/127.0.0.1/tcp/4001" (Except.error "connection refused"))
      = false :=
  ⟨rfl, rfl⟩

/-- C5 (amended): for every `Dial(address)` command, a parse failure drops the
command silently (no effect, state unchanged); on parse success the dial is
issued and its outcome — failure included — is silently ignored (no log
entry, no retry, no reply); the actor keeps running, and a subsequent
`GetPeers` behaves exactly as it would have without the dial. -/
theorem C5_dial_fire_and_forget :
    ∀ (env : SwarmEnv) (s : SwarmState) (addr : String),
      (env.parseMultiaddr addr = none →
        MeshNode.step env s (LoopInput.command (some (MeshCommand.dial addr)))
          = StepOutcome.cont s [])
      ∧ (∀ ma, env.parseMultiaddr addr = some ma →
          MeshNode.step env s (LoopInput.command (some (MeshCommand.dial addr)))
            = StepOutcome.cont s [Action.dialAttempt ma (env.dialOutcome ma)]
          ∧ Action.isLog (Action.dialAttempt ma (env.dialOutcome ma)) = false)
      ∧ (MeshNode.step env s (LoopInput.command (some (MeshCommand.dial addr)))).isStop
          = false
      ∧ (∀ alive,
          MeshNode.step env
            ((MeshNode.step env s
                (LoopInput.command (some (MeshCommand.dial addr)))).stateAfter s)
            (LoopInput.command (some (MeshCommand.getPeers alive)))
          = MeshNode.step env s (LoopInput.command (some (MeshCommand.getPeers alive)))) := by
  intro env s addr
  cases hp : env.parseMultiaddr addr with
  | none =>
    refine ⟨fun _ => ?_, fun ma hma => ?_, ?_, fun _ => ?_⟩
    · simp [MeshNode.step, hp]
    · exact absurd hma (by simp)
    · simp [MeshNode.step, hp, StepOutcome.isStop]
    · simp [MeshNode.step, hp, StepOutcome.stateAfter]
  | some ma0 =>
    refine ⟨fun hno => ?_, fun ma hma => ?_, ?_, fun _ => ?_⟩
    · exact absurd hno (by simp)
    · obtain rfl := Option.some.inj hma
      exact ⟨by simp [MeshNode.step, hp], rfl⟩
    · simp [MeshNode.step, hp, StepOutcome.isStop]
    · simp [MeshNode.step, hp, StepOutcome.stateAfter]

/-- C5 witness: a non-parsing address is dropped silently at the concrete
environment and state. -/
theorem C5_dial_witness :
    MeshNode.step envA stateA (LoopInput.command (some (MeshCommand.dial "not a valid address")))
      = StepOutcome.cont stateA [] :=
  (C5_dial_fire_and_forget envA stateA "not a valid address").1 rfl

/-- C6: `GetPeers` replies with the snapshot of the connected peers rendered
as strings and `GetPeerId` with the local peer identifier, in both cases
recording the delivery flag of the one-shot send whose result the source
discards; and no continuing step ever changes the local peer identifier, so
`GetPeerId` returns the same value across all calls in one process lifetime. -/
theorem C6_replies_and_stable_peer_id :
    ∀ (env : SwarmEnv) (s : SwarmState) (alive : Bool),
      MeshNode.step env s (LoopInput.command (some (MeshCommand.getPeers alive)))
        = StepOutcome.cont s
            [Action.sendPeers (s.connectedPeers.map fun p => toString p.ofKey) alive]
      ∧ MeshNode.step env s (LoopInput.command (some (MeshCommand.getPeerId alive)))
        = StepOutcome.cont s [Action.sendPeerId (toString s.localPeerId.ofKey) alive]
      ∧ (∀ i s' acts, MeshNode.step env s i = StepOutcome.cont s' acts →
          s'.localPeerId = s.localPeerId) :=
  fun env s alive =>
    ⟨rfl, rfl, fun i s' acts h => (step_cont_state env s i s' acts h).1⟩

/-- C6 witness: the concrete state replies with its two connected peers and
keeps its peer id across an mDNS discovery step. -/
theorem C6_replies_witness :
    MeshNode.step envA stateA (LoopInput.command (some (MeshCommand.getPeers true)))
      = StepOutcome.cont stateA [Action.sendPeers ["5", "9"] true]
    ∧ SwarmState.localPeerId
        { localPeerId := PeerId.mk 7
          connectedPeers := [PeerId.mk 5, PeerId.mk 9]
          routingTable := [(PeerId.mk 3, "/ip4/10.0.0.2/tcp/4001")] }
      = stateA.localPeerId :=
  ⟨(C6_replies_and_stable_peer_id envA stateA true).1,
   (C6_replies_and_stable_peer_id envA stateA true).2.2
     (LoopInput.swarmEvent (SwarmEv.mdnsDiscovered [(PeerId.mk 3, "/ip4/10.0.0.2/tcp/4001")]))
     _ _ rfl⟩

/-- C7: on an mDNS "peer found" event the routing table becomes the fold of
`add_address` over the reported (peer, address) pairs — each pair is inserted,
with no deduplication beyond the table's own — and no other input of a
continuing iteration modifies the routing table. -/
theorem C7_routing_table_only_discovery :
    ∀ (env : SwarmEnv) (s : SwarmState),
      (∀ found,
        MeshNode.step env s (LoopInput.swarmEvent (SwarmEv.mdnsDiscovered found))
          = StepOutcome.cont
              { s with routingTable :=
                  found.foldl (fun rt pa => kademliaAddAddress rt pa.1 pa.2) s.routingTable }
              (found.flatMap fun pa =>
                [Action.logged LogLevel.info
                  ("mDNS Discovered: " ++ toString pa.1.ofKey ++ " at " ++ pa.2),
                 Action.kadInsert pa.1 pa.2]))
      ∧ (∀ i s' acts, MeshNode.step env s i = StepOutcome.cont s' acts →
          (∀ found, i ≠ LoopInput.swarmEvent (SwarmEv.mdnsDiscovered found)) →
          s'.routingTable = s.routingTable) := by
  intro env s
  refine ⟨fun found => rfl, fun i s' acts h hni => ?_⟩
  rcases (step_cont_state env s i s' acts h).2.2 with hsame | ⟨found, rfl, -⟩
  · exact hsame
  · exact absurd rfl (hni found)

/-- C7 witness: one discovered pair is appended to the concrete state's
routing table, and a `GetPeerId` command leaves the table unchanged. -/
theorem C7_routing_table_witness :
    MeshNode.step envA stateA
        (LoopInput.swarmEvent (SwarmEv.mdnsDiscovered [(PeerId.mk 3, "/ip4/10.0.0.2/tcp/4001")]))
      = StepOutcome.cont
          { localPeerId := PeerId.mk 7
            connectedPeers := [PeerId.mk 5, PeerId.mk 9]
            routingTable := [(PeerId.mk 3, "/ip4/10.0.0.2/tcp/4001")] }
          [Action.logged LogLevel.info "mDNS Discovered: 3 at /ip4/10.0.0.2/tcp/4001",
           Action.kadInsert (PeerId.mk 3) "/ip4/10.0.0.2/tcp/4001"]
    ∧ stateA.routingTable = stateA.routingTable :=
  ⟨(C7_routing_table_only_discovery envA stateA).1 [(PeerId.mk 3, "/ip4/10.0.0.2/tcp/4001")],
   (C7_routing_table_only_discovery envA stateA).2
     (LoopInput.command (some (MeshCommand.getPeerId true))) stateA
     [Action.sendPeerId "7" true] rfl (fun found h => by cases h)⟩

/-- C8: `run` first calls `listen_on` with the all-interfaces, OS-assigned-port
address `/ip4/0.0.0.0/tcp/0`; if that binding fails, the whole subsystem
aborts: the loop is never entered, no command or event is processed (the
result is independent of the input trace and the state), the only effect is
one error log, and no retry happens. -/
theorem C8_listen_failure_is_fatal :
    listenAddress = "/ip4/0.0.0.0/tcp/0"
    ∧ ∀ (env : SwarmEnv) (s : SwarmState) (inputs : List LoopInput) (e : String),
        env.listenOutcome listenAddress = Except.error e →
        MeshNode.run env s inputs
          = ([Action.logged LogLevel.error ("Failed to start listener: " ++ e)],
             RunOutcome.stopped) := by
  refine ⟨rfl, fun env s inputs e h => ?_⟩
  simp [MeshNode.run, h]

/-- C8 witness: with a failing listener binding, a nonempty input trace is
never processed. -/
theorem C8_listen_failure_witness :
    MeshNode.run envListenFail stateA [LoopInput.command (some (MeshCommand.getPeerId true))]
      = ([Action.logged LogLevel.error "Failed to start listener: address in use"],
         RunOutcome.stopped) :=
  C8_listen_failure_is_fatal.2 envListenFail stateA
    [LoopInput.command (some (MeshCommand.getPeerId true))] "address in use" rfl

/-- C9: whenever `MeshNode::new` succeeds, the gossipsub behaviour it built
signs every published message with the identity key
(`MessageAuthenticity::Signed`), validates incoming messages in strict mode,
and uses a heartbeat interval of exactly one second; and strict-mode ingress
drops a malformed or improperly signed message silently (no surfaced event). -/
theorem C9_gossipsub_signed_strict_one_second :
    (∀ (lib : LibOutcomes) (idKeys : Nat) (keyFile : Option String) (n : MeshNodeModel),
      (MeshNode.new lib idKeys keyFile).2 = Except.ok n →
      n.gossipsub.authenticity = MessageAuthenticity.signed idKeys
      ∧ n.gossipsub.config.validationMode = ValidationMode.strict
      ∧ n.gossipsub.config.heartbeatIntervalMs = 1000)
    ∧ (∀ m : PubMessage, (m.wellFormed && m.signatureOk) = false →
        gossipsubIngress ValidationMode.strict m = none) := by
  constructor
  · intro lib idKeys keyFile n h
    cases hb : lib.gossipsubBuildErr with
    | some msg => simp [MeshNode.new, hb] at h
    | none =>
      cases hg : lib.gossipsubNewErr with
      | some e => simp [MeshNode.new, hb, hg] at h
      | none =>
        cases hm : lib.mdnsNewErr with
        | some e => simp [MeshNode.new, hb, hg, hm] at h
        | none =>
          simp [MeshNode.new, hb, hg, hm] at h
          subst h
          exact ⟨rfl, rfl, rfl⟩
  · intro m h
    simp [gossipsubIngress, h]

/-- C9 witness: the configuration of the concretely constructed node, and an
unsigned message dropped at strict ingress. -/
theorem C9_gossipsub_witness :
    nodeA.gossipsub.authenticity = MessageAuthenticity.signed 7
    ∧ nodeA.gossipsub.config.validationMode = ValidationMode.strict
    ∧ nodeA.gossipsub.config.heartbeatIntervalMs = 1000
    ∧ gossipsubIngress ValidationMode.strict (PubMessage.mk true false) = none :=
  ⟨(C9_gossipsub_signed_strict_one_second.1 libOk 7 none nodeA rfl).1,
   (C9_gossipsub_signed_strict_one_second.1 libOk 7 none nodeA rfl).2.1,
   (C9_gossipsub_signed_strict_one_second.1 libOk 7 none nodeA rfl).2.2,
   C9_gossipsub_signed_strict_one_second.2 (PubMessage.mk true false) rfl⟩

/-- C10: `MeshNode::new` never reads the file at `key_path`: for any two
contents (or absence) of the key file, construction yields identical logs and
an identical result — the pre-shared key file has no influence whatsoever on
the constructed node. -/
theorem C10_construction_independent_of_key_file :
    ∀ (lib : LibOutcomes) (idKeys : Nat) (f₁ f₂ : Option String),
      MeshNode.new lib idKeys f₁ = MeshNode.new lib idKeys f₂ :=
  fun _ _ _ _ => rfl

end SovereignMesh
